import Mathlib

/-!
Verification development for the Docker-Learning repository.

The repository holds three small Python scripts:
* `tempCodeRunnerFile.py` — a name store over a MySQL table
  `names(id INT AUTO_INCREMENT PRIMARY KEY, name VARCHAR(255))`, with
  `create_table`, `insert_name`, `fetch_all_names` and a `__main__` block;
* `myapp.py` — reads `server.txt` inside `try/except Exception`, printing the
  exception and its type on failure, and otherwise each line `rstrip`-ped;
* `api_demo.py` — fetches a cat fact over HTTP, catching request exceptions.

Each script is shallowly embedded below; the database is explicit state, the
external world (server faults, file contents, HTTP outcomes) is an explicit
parameter, and Python exceptions become explicit error results.
-/

namespace NameStore

/-- One row of the `names` table: `id INT AUTO_INCREMENT PRIMARY KEY`,
`name VARCHAR(255)`. -/
structure Row where
  id : Nat
  name : String
  deriving DecidableEq, Repr

/-- The `names` table: the declared length bound of the `name` column
(255 in the schema issued by `create_table`), its rows in insertion
order, and the next `AUTO_INCREMENT` id. -/
structure Table where
  nameMaxLen : Nat
  rows : List Row
  nextId : Nat
  deriving DecidableEq, Repr

/-- The `userinfo` database: the `names` table when it exists. -/
structure DB where
  table : Option Table
  deriving DecidableEq, Repr

/-- A `pymysql` connection handle; `isOpen` is false once closed. -/
structure Conn where
  isOpen : Bool
  deriving DecidableEq, Repr

/-- The state an operation acts on: the database plus the connection. -/
structure World where
  db : DB
  conn : Conn
  deriving DecidableEq, Repr

/-- The errors a database request can signal: operating on a closed
connection, a statement against a missing table, a value longer than the
column (MySQL strict mode, error 1406), or the server being unreachable. -/
inductive DBError where
  | interfaceClosed
  | noSuchTable
  | dataTooLong
  | serverGone
  deriving DecidableEq, Repr

/-- Outcome of a database operation: the post-state together with either a
value or the error that propagated.  On an error the database keeps the
state it had (each operation here is a single all-or-nothing statement). -/
inductive DBResult (α : Type) where
  | ok (w : World) (a : α)
  | err (w : World) (e : DBError)
  deriving DecidableEq, Repr

/-- The state after an operation, whether it succeeded or raised. -/
def DBResult.world {α : Type} : DBResult α → World
  | .ok w _ => w
  | .err w _ => w

/-- Sequencing: run the continuation on success, propagate the error
otherwise (Python exception propagation). -/
def DBResult.bind {α β : Type} (r : DBResult α) (f : World → α → DBResult β) :
    DBResult β :=
  match r with
  | .ok w a => f w a
  | .err w e => .err w e

/-- All rows currently stored (none when the table does not exist). -/
def DB.allRows (db : DB) : List Row :=
  match db.table with
  | none => []
  | some t => t.rows

/-- The stored names, in row order. -/
def DB.names (db : DB) : List String :=
  db.allRows.map Row.name

/-- Python `create_table(connection)`: issues
`CREATE TABLE IF NOT EXISTS names (id INT AUTO_INCREMENT PRIMARY KEY,
name VARCHAR(255))` and commits.  A no-op when the table already exists;
otherwise creates the empty table with the 255-character `name` column. -/
def create_table (w : World) : DBResult Unit :=
  if w.conn.isOpen then
    match w.db.table with
    | some _ => .ok w ()
    | none =>
        .ok { w with db := { table := some { nameMaxLen := 255, rows := [], nextId := 1 } } } ()
  else .err w .interfaceClosed

/-- Python `insert_name(connection, name)`: executes
`INSERT INTO names (name) VALUES (%s)` and commits.  Raises on a closed
connection or a missing table; in strict mode the server rejects a value
longer than the declared `VARCHAR(255)`; otherwise appends one row with
the next auto-increment id. -/
def insert_name (w : World) (name : String) : DBResult Unit :=
  if w.conn.isOpen then
    match w.db.table with
    | none => .err w .noSuchTable
    | some t =>
        if name.length ≤ t.nameMaxLen then
          .ok { w with db := { table := some { t with
                  rows := t.rows ++ [{ id := t.nextId, name := name }],
                  nextId := t.nextId + 1 } } } ()
        else .err w .dataTooLong
  else .err w .interfaceClosed

/-- Python `fetch_all_names(connection)`: executes `SELECT name FROM names` and
returns `[row[0] for row in cursor.fetchall()]` — the stored names in the
order the server returns the rows (insertion order here). -/
def fetch_all_names (w : World) : DBResult (List String) :=
  if w.conn.isOpen then
    match w.db.table with
    | none => .err w .noSuchTable
    | some _ => .ok w w.db.names
  else .err w .interfaceClosed

/-- A world with no `names` table yet and a freshly opened connection:
the state the literal scenario of the spec starts from. -/
def freshWorld : World :=
  { db := { table := none }, conn := { isOpen := true } }

/-- The literal scenario of the spec: ensure the schema on an empty
database, `insert "Khushi"`, `insert "Alice"`, then `listAll`. -/
def literalScenario : DBResult (List String) :=
  (create_table freshWorld).bind fun w _ =>
    (insert_name w "Khushi").bind fun w _ =>
      (insert_name w "Alice").bind fun w _ =>
        fetch_all_names w

/-- The state the literal scenario ends in. -/
def literalFinalWorld : World :=
  ⟨⟨some ⟨255, [⟨1, "Khushi"⟩, ⟨2, "Alice"⟩], 3⟩⟩, ⟨true⟩⟩

/-- A world whose `names` table exists and is empty, with an open
connection. -/
def emptyTableWorld : World := ⟨⟨some ⟨255, [], 1⟩⟩, ⟨true⟩⟩

/-- The world `emptyTableWorld` reaches after inserting "A", "B", "C". -/
def abcWorld : World := ⟨⟨some ⟨255, [⟨1, "A"⟩, ⟨2, "B"⟩, ⟨3, "C"⟩], 4⟩⟩, ⟨true⟩⟩

/-- A world whose connection has been closed. -/
def closedWorld : World := ⟨⟨some ⟨255, [], 1⟩⟩, ⟨false⟩⟩

/-- A sequence of `insert_name` calls, stopping at the first error
(a raised exception aborts the calling sequence). -/
def insertAll (w : World) : List String → DBResult Unit
  | [] => .ok w ()
  | n :: rest =>
    match insert_name w n with
    | .ok w' _ => insertAll w' rest
    | .err w' e => .err w' e

lemma insert_name_ok {w w' : World} {n : String} {u : Unit}
    (h : insert_name w n = .ok w' u) :
    w'.conn = w.conn ∧ w'.db.names = w.db.names ++ [n] ∧ w'.db.table.isSome := by
  unfold insert_name at h
  split at h
  · split at h
    · exact absurd h (by simp)
    · split at h
      · rename_i t htab hlen
        cases h
        simp [DB.names, DB.allRows, htab]
      · exact absurd h (by simp)
  · exact absurd h (by simp)

lemma insertAll_ok {ns : List String} :
    ∀ {w w' : World} {u : Unit}, insertAll w ns = .ok w' u →
      w'.conn = w.conn ∧ w'.db.names = w.db.names ++ ns ∧
        (ns = [] → w' = w) ∧ (ns ≠ [] → w'.db.table.isSome) := by
  induction ns with
  | nil =>
      intro w w' u h
      unfold insertAll at h
      cases h
      simp
  | cons n rest ih =>
      intro w w' u h
      unfold insertAll at h
      split at h
      · rename_i w1 u1 hstep
        obtain ⟨hc1, hn1, ht1⟩ := insert_name_ok hstep
        obtain ⟨hc2, hn2, _, ht2⟩ := ih h
        refine ⟨hc2.trans hc1, ?_, by simp, fun _ => ?_⟩
        · simp [hn2, hn1]
        · rcases Decidable.em (rest = []) with hrest | hrest
          · subst hrest
            unfold insertAll at h
            cases h
            exact ht1
          · exact ht2 hrest
      · exact absurd h (by simp)

@[simp] lemma DBResult.world_ok {α : Type} (w : World) (a : α) :
    (DBResult.ok w a).world = w := rfl

@[simp] lemma DBResult.world_err {α : Type} (w : World) (e : DBError) :
    (DBResult.err (α := α) w e).world = w := rfl

/-- A name 256 characters long: one character more than the schema's
`VARCHAR(255)` column admits. -/
def longName : String := String.mk (List.replicate 256 'a')

/-- One call of the name store's interface, as an action on the state;
`World` records the state the call leaves behind, whether it returned or
raised. -/
inductive Op where
  | ensureSchema
  | insertOp (name : String)
  | listAllOp

/-- The state after one operation of the name store. -/
def applyOp (w : World) : Op → World
  | .ensureSchema => (create_table w).world
  | .insertOp n => (insert_name w n).world
  | .listAllOp => (fetch_all_names w).world

/-- The state after a sequence of name-store operations. -/
def runOps (w : World) (ops : List Op) : World := ops.foldl applyOp w

lemma applyOp_mem {w : World} {r : Row} (op : Op) (h : r ∈ w.db.allRows) :
    r ∈ (applyOp w op).db.allRows := by
  cases op with
  | ensureSchema =>
      unfold applyOp create_table
      cases hopen : w.conn.isOpen with
      | false => simpa [hopen] using h
      | true =>
          cases htab : w.db.table with
          | none =>
              rw [DB.allRows, htab] at h
              simp at h
          | some t => simpa [hopen, htab] using h
  | insertOp n =>
      unfold applyOp insert_name
      cases hopen : w.conn.isOpen with
      | false => simpa [hopen] using h
      | true =>
          cases htab : w.db.table with
          | none => simpa [hopen, htab] using h
          | some t =>
              rcases Decidable.em (n.length ≤ t.nameMaxLen) with hlen | hlen
              · rw [DB.allRows, htab] at h
                simp only [hopen, htab, hlen, if_pos, if_true]
                simp only [DBResult.world_ok, DB.allRows]
                exact List.mem_append_left _ h
              · simpa [hopen, htab, hlen] using h
  | listAllOp =>
      unfold applyOp fetch_all_names
      cases hopen : w.conn.isOpen with
      | false => simpa [hopen] using h
      | true =>
          cases htab : w.db.table with
          | none => simpa [hopen, htab] using h
          | some t => simpa [hopen, htab] using h

lemma fetch_ok_of {w : World} {t : Table} (hopen : w.conn.isOpen = true)
    (htab : w.db.table = some t) :
    fetch_all_names w = .ok w w.db.names := by
  unfold fetch_all_names
  rw [hopen, htab]
  simp

lemma fetch_ok_inv {w w' : World} {l : List String}
    (h : fetch_all_names w = .ok w' l) :
    w.conn.isOpen = true ∧ w.db.table.isSome ∧ w' = w ∧ l = w.db.names := by
  unfold fetch_all_names at h
  split at h
  · split at h
    · exact absurd h (by simp)
    · rename_i hopen t htab
      cases h
      simp_all
  · exact absurd h (by simp)

/-- Python `create_connection()`: `pymysql.connect(...)` — returns a live
connection, or raises when the server is unreachable (`fault`). -/
def create_connection (fault : Bool) : Option Conn :=
  if fault then none else some ⟨true⟩

/-- One database request of the main block: the external fault oracle can
make the server unreachable for this request; otherwise the operation
runs on the current state. -/
def step {α : Type} (fault : Bool) (f : World → DBResult α) (w : World) :
    DBResult α :=
  if fault then .err w .serverGone else f w

/-- The line `print("Names in database:", all_names)` writes (the exact
quoting of Python's list repr is abstracted). -/
def namesLine (names : List String) : String :=
  "Names in database: [" ++ String.intercalate ", " names ++ "]"

/-- Outcome of one run of the `__main__` block: the lines printed to
standard output, the process exit status (0 on success, 1 for an
unhandled traceback), whether `connection.close()` was reached, and the
database state left behind. -/
structure RunResult where
  output : List String
  exitCode : Nat
  connClosed : Bool
  finalDB : DB
  deriving DecidableEq, Repr

/-- The `__main__` block of `tempCodeRunnerFile.py`: open a connection,
`create_table`, insert "Khushi" and "Alice", fetch and print all names,
then `connection.close()`.  There is no `try/finally` or `with` around
the sequence: when an operation raises, the exception propagates,
`connection.close()` is never reached, and the process dies with a
traceback.  `fault i` says whether the i-th request finds the server
unreachable. -/
def mainRun (fault : Nat → Bool) (db0 : DB) : RunResult :=
  match create_connection (fault 0) with
  | none => ⟨[], 1, false, db0⟩
  | some c =>
    match step (fault 1) create_table ⟨db0, c⟩ with
    | .err w _ => ⟨[], 1, false, w.db⟩
    | .ok w1 _ =>
      match step (fault 2) (fun w => insert_name w "Khushi") w1 with
      | .err w _ => ⟨[], 1, false, w.db⟩
      | .ok w2 _ =>
        match step (fault 3) (fun w => insert_name w "Alice") w2 with
        | .err w _ => ⟨[], 1, false, w.db⟩
        | .ok w3 _ =>
          match step (fault 4) fetch_all_names w3 with
          | .err w _ => ⟨[], 1, false, w.db⟩
          | .ok w4 all_names => ⟨[namesLine all_names], 0, true, w4.db⟩

/-- The only schema this program ever creates: when the `names` table
exists, its `name` column is `VARCHAR(255)`. -/
def DB.wellFormed (db : DB) : Prop :=
  ∀ t, db.table = some t → t.nameMaxLen = 255

lemma create_table_some {w : World} {t : Table} (hopen : w.conn.isOpen = true)
    (htab : w.db.table = some t) : create_table w = .ok w () := by
  unfold create_table
  rw [hopen, htab]
  rfl

lemma insert_name_eq {w : World} {t : Table} {n : String}
    (hopen : w.conn.isOpen = true) (htab : w.db.table = some t)
    (hlen : n.length ≤ t.nameMaxLen) :
    insert_name w n =
      .ok ⟨⟨some ⟨t.nameMaxLen, t.rows ++ [⟨t.nextId, n⟩], t.nextId + 1⟩⟩, w.conn⟩ () := by
  unfold insert_name
  rw [hopen, htab]
  exact if_pos hlen

end NameStore

namespace MyApp

/-- What `open('server.txt', 'r')` followed by `file.readlines()`
produces: either a raised exception (its message and the name of its
type), or the file's lines exactly as `readlines` yields them, trailing
newline included. -/
inductive FileOutcome where
  | failure (msg ty : String)
  | content (lines : List String)
  deriving DecidableEq, Repr

/-- The `try` block: `open` plus `readlines`, as a fallible computation
whose error carries the exception's message and type name. -/
def readLines : FileOutcome → Except (String × String) (List String)
  | .failure msg ty => .error (msg, ty)
  | .content lines => .ok lines

/-- The whitespace characters `str.rstrip()` strips: space, tab, newline,
carriage return, vertical tab, form feed. -/
def isPySpace (c : Char) : Bool :=
  c == ' ' || c == '\t' || c == '\n' || c == '\r' ||
    c == Char.ofNat 11 || c == Char.ofNat 12

/-- Python `line.rstrip()`: the line with all trailing whitespace removed. -/
def rstrip (s : String) : String :=
  String.mk (s.data.reverse.dropWhile isPySpace).reverse

/-- The live code of `myapp.py`: `try` read all lines of `server.txt`;
`except Exception as e: print(e, type(e))`; `else:` print each line
`rstrip`-ped.  The result is the list of lines printed to standard
output. -/
def script (o : FileOutcome) : List String :=
  match readLines o with
  | .error e => [e.1 ++ " " ++ e.2]
  | .ok content => content.map rstrip

end MyApp

namespace ApiDemo

/-- Outcome of `requests.get(url)`: a raised `RequestException` carrying
its message, or a completed response with a status code and a body. -/
inductive HttpOutcome where
  | failure (msg : String)
  | response (status : Nat) (body : String)
  deriving DecidableEq, Repr

/-- Python `response.raise_for_status()`: raises `HTTPError` — a subclass of
`RequestException` — exactly for 4xx and 5xx status codes. -/
def raise_for_status (status : Nat) : Except String Unit :=
  if 400 ≤ status ∧ status < 600 then .error ("HTTP error " ++ toString status)
  else .ok ()

/-- The `try` body of `fetch_random_cat_fact`: perform the GET, raise for
a bad status, and return `response.text`. -/
def tryFetch : HttpOutcome → Except String String
  | .failure msg => .error msg
  | .response status body =>
    match raise_for_status status with
    | .error e => .error e
    | .ok _ => .ok body

/-- Python `fetch_random_cat_fact()`: the `try` body under
`except requests.exceptions.RequestException as e`, which prints the
error and returns `None`.  Result: the returned value together with the
lines the function printed. -/
def fetch_random_cat_fact (o : HttpOutcome) : Option String × List String :=
  match tryFetch o with
  | .ok fact => (some fact, [])
  | .error e => (none, ["An error occurred: " ++ e])

/-- How `print(x)` renders the value: Python prints `None` as the text
"None". -/
def pyShow : Option String → String
  | none => "None"
  | some s => s

/-- Python `main()`: call `fetch_random_cat_fact`, print "Random Cat Fact:" and
then the fact (or `None`).  The result is every line printed to standard
output during the run. -/
def apiMain (o : ApiDemo.HttpOutcome) : List String :=
  (fetch_random_cat_fact o).2 ++
    ["Random Cat Fact:", pyShow (fetch_random_cat_fact o).1]

end ApiDemo

/-- C2: for every table state and every list of names, if `N` insert
operations all succeed and `listAll` succeeded before them, then `listAll`
succeeds afterwards and the length of the returned sequence equals the
length returned before, plus `N`. -/
theorem C2_growth (w w' : NameStore.World) (ns pre : List String)
    (h1 : NameStore.insertAll w ns = NameStore.DBResult.ok w' ())
    (h2 : NameStore.fetch_all_names w = NameStore.DBResult.ok w pre) :
    ∃ post, NameStore.fetch_all_names w' = NameStore.DBResult.ok w' post ∧
      post.length = pre.length + ns.length := by
  obtain ⟨hopen, htab, -, hpre⟩ := NameStore.fetch_ok_inv h2
  obtain ⟨hconn, hnames, hnil, hcons⟩ := NameStore.insertAll_ok h1
  have hopen' : w'.conn.isOpen = true := by rw [hconn]; exact hopen
  have htab' : w'.db.table.isSome := by
    rcases Decidable.em (ns = []) with hns | hns
    · rw [hnil hns]; exact htab
    · exact hcons hns
  obtain ⟨t', ht'⟩ := Option.isSome_iff_exists.mp htab'
  refine ⟨w'.db.names, NameStore.fetch_ok_of hopen' ht', ?_⟩
  rw [hnames, hpre]
  simp

/-- Witness for C2 at a concrete state: the empty table with an open
connection, inserting three names. -/
theorem C2_growth_witness :
    NameStore.insertAll NameStore.emptyTableWorld ["A", "B", "C"] =
        NameStore.DBResult.ok NameStore.abcWorld () ∧
      NameStore.fetch_all_names NameStore.emptyTableWorld =
        NameStore.DBResult.ok NameStore.emptyTableWorld [] ∧
      ∃ post, NameStore.fetch_all_names NameStore.abcWorld =
          NameStore.DBResult.ok NameStore.abcWorld post ∧
        post.length = ([] : List String).length + (["A", "B", "C"] : List String).length :=
  ⟨by decide, by decide,
    C2_growth NameStore.emptyTableWorld NameStore.abcWorld ["A", "B", "C"] []
      (by decide) (by decide)⟩

/-- C3: calling `insert` on a closed connection signals a
database-operation failure — the error propagates to the caller — and the
post-state is exactly the pre-state, so the table is unmodified. -/
theorem C3_insert_closed_connection (w : NameStore.World) (n : String)
    (h : w.conn.isOpen = false) :
    NameStore.insert_name w n =
      NameStore.DBResult.err w NameStore.DBError.interfaceClosed := by
  unfold NameStore.insert_name
  rw [h]
  simp

/-- Witness for C3: a closed connection over the empty table. -/
theorem C3_insert_closed_connection_witness :
    NameStore.insert_name NameStore.closedWorld "Khushi" =
      NameStore.DBResult.err NameStore.closedWorld
        NameStore.DBError.interfaceClosed :=
  C3_insert_closed_connection NameStore.closedWorld "Khushi" (by decide)

/-- C4: on an open connection, calling `create_table` twice succeeds and
the second call is a no-op — the state after two calls equals the state
after one, and no error is raised. -/
theorem C4_create_table_idempotent (w : NameStore.World)
    (h : w.conn.isOpen = true) :
    ∃ w1, NameStore.create_table w = NameStore.DBResult.ok w1 () ∧
      NameStore.create_table w1 = NameStore.DBResult.ok w1 () := by
  unfold NameStore.create_table
  cases htab : w.db.table with
  | none =>
      refine ⟨⟨⟨some ⟨255, [], 1⟩⟩, w.conn⟩, ?_, ?_⟩ <;> simp [h, htab]
  | some t =>
      refine ⟨w, ?_, ?_⟩ <;> simp [h, htab]

/-- Witness for C4: the fresh world with no table and an open connection. -/
theorem C4_create_table_idempotent_witness :
    ∃ w1, NameStore.create_table NameStore.freshWorld = NameStore.DBResult.ok w1 () ∧
      NameStore.create_table w1 = NameStore.DBResult.ok w1 () :=
  C4_create_table_idempotent NameStore.freshWorld (by decide)

set_option maxRecDepth 4000 in
/-- Counterexample to C5: the schema declares `name VARCHAR(255)`, so a
256-character name is rejected (`dataTooLong`, MySQL strict-mode error
1406) rather than stored — the claim that every text value, regardless of
length, is stored successfully is false. -/
theorem C5_no_length_limit_counterexample :
    NameStore.longName.length = 256 ∧
      NameStore.insert_name NameStore.emptyTableWorld NameStore.longName =
        NameStore.DBResult.err NameStore.emptyTableWorld
          NameStore.DBError.dataTooLong := by
  constructor <;> decide

/-- C5 (amended): the component itself imposes no validation, but the
schema declares `VARCHAR(255)`: on an open connection and an existing
table with that column bound, `insert` stores every name of length at
most 255 successfully, appending it to the stored names. -/
theorem C5_insert_within_schema_limit (w : NameStore.World)
    (t : NameStore.Table) (name : String)
    (hopen : w.conn.isOpen = true) (htab : w.db.table = some t)
    (hmax : t.nameMaxLen = 255) (hlen : name.length ≤ 255) :
    ∃ w', NameStore.insert_name w name = NameStore.DBResult.ok w' () ∧
      w'.db.names = w.db.names ++ [name] := by
  have hlen' : name.length ≤ t.nameMaxLen := hmax ▸ hlen
  refine ⟨⟨⟨some ⟨t.nameMaxLen, t.rows ++ [⟨t.nextId, name⟩], t.nextId + 1⟩⟩, w.conn⟩, ?_, ?_⟩
  · unfold NameStore.insert_name
    rw [hopen, htab]
    exact if_pos hlen'
  · simp [NameStore.DB.names, NameStore.DB.allRows, htab]

/-- Witness for C5 (amended): inserting "Khushi" into the empty table. -/
theorem C5_insert_within_schema_limit_witness :
    ∃ w', NameStore.insert_name NameStore.emptyTableWorld "Khushi" =
        NameStore.DBResult.ok w' () ∧
      w'.db.names = NameStore.emptyTableWorld.db.names ++ ["Khushi"] :=
  C5_insert_within_schema_limit NameStore.emptyTableWorld ⟨255, [], 1⟩ "Khushi"
    (by decide) (by decide) (by decide) (by decide)

/-- C6: no operation of the name store updates or deletes an existing
record — every row present before any sequence of `ensureSchema`,
`insert`, `listAll` calls (succeeding or raising) is still present
afterwards, with the same id and name. -/
theorem C6_records_never_updated_or_deleted (w : NameStore.World)
    (ops : List NameStore.Op) (r : NameStore.Row)
    (h : r ∈ w.db.allRows) : r ∈ (NameStore.runOps w ops).db.allRows := by
  induction ops generalizing w with
  | nil => exact h
  | cons op rest ih => exact ih (NameStore.applyOp w op) (NameStore.applyOp_mem op h)

/-- Witness for C6: the row `(1, "Khushi")` survives a further schema
call, an insert and a fetch. -/
theorem C6_records_never_updated_or_deleted_witness :
    (⟨1, "Khushi"⟩ : NameStore.Row) ∈
      (NameStore.runOps NameStore.literalFinalWorld
        [NameStore.Op.ensureSchema, NameStore.Op.insertOp "X",
         NameStore.Op.listAllOp]).db.allRows :=
  C6_records_never_updated_or_deleted NameStore.literalFinalWorld _ _ (by decide)

/-- Counterexample to C7: a run where the server becomes unreachable at
the first insert.  The operation fails (the process exits 1 with a
traceback), and `connection.close()` is never reached — the source has no
`try/finally` or `with`, so the connection is NOT released on this exit
path, contradicting the claimed guaranteed close. -/
theorem C7_guaranteed_close_counterexample :
    (NameStore.mainRun (fun i => i == 2) ⟨none⟩).exitCode = 1 ∧
      (NameStore.mainRun (fun i => i == 2) ⟨none⟩).connClosed = false := by
  constructor <;> decide

/-- C7 (amended): the main script opens its connection at the start but
closes it only on the all-success path: `connection.close()` is reached
exactly on runs where no database operation fails (exit status 0); on a
failing run the error propagates and the connection is left unreleased. -/
theorem C7_connection_closed_only_on_success (fault : Nat → Bool)
    (db0 : NameStore.DB) :
    (NameStore.mainRun fault db0).connClosed = true ↔
      (NameStore.mainRun fault db0).exitCode = 0 := by
  unfold NameStore.mainRun
  split
  · simp
  · split
    · simp
    · split
      · simp
      · split
        · simp
        · split
          · simp
          · simp

/-- C8: on a run in which every database operation succeeds (no server
fault; the table, when it already exists, has the schema this program
creates), the main script prints exactly one line — the final list of all
stored names — to standard output and the process exits with status 0. -/
theorem C8_main_prints_names_and_exits_zero (db0 : NameStore.DB)
    (hwf : db0.wellFormed) :
    (NameStore.mainRun (fun _ => false) db0).exitCode = 0 ∧
      (NameStore.mainRun (fun _ => false) db0).finalDB.names =
        db0.names ++ ["Khushi", "Alice"] ∧
      (NameStore.mainRun (fun _ => false) db0).output =
        [NameStore.namesLine
          ((NameStore.mainRun (fun _ => false) db0).finalDB.names)] := by
  obtain ⟨o⟩ := db0
  cases o with
  | none => refine ⟨by decide, by decide, by decide⟩
  | some t =>
      have hmax : t.nameMaxLen = 255 := hwf t rfl
      have h1 : NameStore.create_table ⟨⟨some t⟩, ⟨true⟩⟩ =
          NameStore.DBResult.ok ⟨⟨some t⟩, ⟨true⟩⟩ () :=
        NameStore.create_table_some rfl rfl
      have h2 : NameStore.insert_name ⟨⟨some t⟩, ⟨true⟩⟩ "Khushi" =
          NameStore.DBResult.ok
            ⟨⟨some ⟨t.nameMaxLen, t.rows ++ [⟨t.nextId, "Khushi"⟩], t.nextId + 1⟩⟩, ⟨true⟩⟩ () :=
        NameStore.insert_name_eq rfl rfl (by rw [hmax]; decide)
      have h3 : NameStore.insert_name
            ⟨⟨some ⟨t.nameMaxLen, t.rows ++ [⟨t.nextId, "Khushi"⟩], t.nextId + 1⟩⟩, ⟨true⟩⟩
            "Alice" =
          NameStore.DBResult.ok
            ⟨⟨some ⟨t.nameMaxLen,
              (t.rows ++ [⟨t.nextId, "Khushi"⟩]) ++ [⟨t.nextId + 1, "Alice"⟩],
              t.nextId + 1 + 1⟩⟩, ⟨true⟩⟩ () :=
        NameStore.insert_name_eq rfl rfl (by rw [hmax]; decide)
      have h4 : NameStore.fetch_all_names
            ⟨⟨some ⟨t.nameMaxLen,
              (t.rows ++ [⟨t.nextId, "Khushi"⟩]) ++ [⟨t.nextId + 1, "Alice"⟩],
              t.nextId + 1 + 1⟩⟩, ⟨true⟩⟩ =
          NameStore.DBResult.ok
            ⟨⟨some ⟨t.nameMaxLen,
              (t.rows ++ [⟨t.nextId, "Khushi"⟩]) ++ [⟨t.nextId + 1, "Alice"⟩],
              t.nextId + 1 + 1⟩⟩, ⟨true⟩⟩
            (NameStore.DB.names ⟨some ⟨t.nameMaxLen,
              (t.rows ++ [⟨t.nextId, "Khushi"⟩]) ++ [⟨t.nextId + 1, "Alice"⟩],
              t.nextId + 1 + 1⟩⟩) :=
        NameStore.fetch_ok_of rfl rfl
      simp only [NameStore.mainRun, NameStore.create_connection, NameStore.step,
        Bool.false_eq_true, if_false, h1, h2, h3, h4]
      refine ⟨trivial, ?_, trivial⟩
      simp [NameStore.DB.names, NameStore.DB.allRows]

/-- Witness for C8: the database with no `names` table yet. -/
theorem C8_main_prints_names_and_exits_zero_witness :
    (NameStore.mainRun (fun _ => false) ⟨none⟩).exitCode = 0 ∧
      (NameStore.mainRun (fun _ => false) ⟨none⟩).finalDB.names =
        (⟨none⟩ : NameStore.DB).names ++ ["Khushi", "Alice"] ∧
      (NameStore.mainRun (fun _ => false) ⟨none⟩).output =
        [NameStore.namesLine
          ((NameStore.mainRun (fun _ => false) ⟨none⟩).finalDB.names)] :=
  C8_main_prints_names_and_exits_zero ⟨none⟩ (fun t h => by cases h)

/-- C1: starting from an empty names table, `insert(c,"Khushi")`,
`insert(c,"Alice")`, `listAll(c)` succeeds and yields a sequence of exactly
two elements whose underlying set is `{"Khushi", "Alice"}`. -/
theorem C1_literal_scenario :
    ∃ (w : NameStore.World) (l : List String),
      NameStore.literalScenario = NameStore.DBResult.ok w l ∧
        l.length = 2 ∧ l.toFinset = ({"Khushi", "Alice"} : Finset String) := by
  exact ⟨NameStore.literalFinalWorld, ["Khushi", "Alice"], by decide, by decide, by decide⟩

/-- C9: the file-reading script catches every exception raised while
opening or reading `server.txt` and prints it with its type (one line, no
retry), and prints the file's lines — each with trailing whitespace
stripped — exactly when opening and reading succeed. -/
theorem C9_file_script_catches_and_prints (o : MyApp.FileOutcome) :
    (∃ e, MyApp.readLines o = Except.error e ∧
        MyApp.script o = [e.1 ++ " " ++ e.2]) ∨
      (∃ ls, MyApp.readLines o = Except.ok ls ∧
        MyApp.script o = ls.map MyApp.rstrip) := by
  cases o with
  | failure msg ty => exact Or.inl ⟨(msg, ty), rfl, rfl⟩
  | content lines => exact Or.inr ⟨lines, rfl, rfl⟩

/-- C10: `fetch_random_cat_fact` never propagates a request exception —
on every failing HTTP interaction it prints an error line and returns
`None`, on every successful response it returns the body — and `main`
always prints "Random Cat Fact:" followed by the fact or by `None`. -/
theorem C10_fetch_never_propagates (o : ApiDemo.HttpOutcome) :
    ((∃ b, ApiDemo.tryFetch o = Except.ok b ∧
        ApiDemo.fetch_random_cat_fact o = (some b, [])) ∨
      (∃ e, ApiDemo.tryFetch o = Except.error e ∧
        ApiDemo.fetch_random_cat_fact o =
          (none, ["An error occurred: " ++ e]))) ∧
    ∃ pre, ApiDemo.apiMain o =
      pre ++ ["Random Cat Fact:",
        ApiDemo.pyShow (ApiDemo.fetch_random_cat_fact o).1] := by
  constructor
  · cases h : ApiDemo.tryFetch o with
    | ok b =>
        exact Or.inl ⟨b, rfl, by simp [ApiDemo.fetch_random_cat_fact, h]⟩
    | error e =>
        exact Or.inr ⟨e, rfl, by simp [ApiDemo.fetch_random_cat_fact, h]⟩
  · exact ⟨(ApiDemo.fetch_random_cat_fact o).2, rfl⟩
